import Mathlib

/-!
Shallow embedding of the core of the `trade` repository (Python) and proofs
about it.  Prices, volumes and timestamps are modelled as rationals
(timestamps are seconds since the epoch; Python floats become exact
rationals).  Python exceptions become explicit control flow: a function that
can raise returns the partially mutated state together with a `raised` flag,
mirroring the fact that in-place mutations made before the raise persist.
-/

/-- Python `min` over a nonempty list (the sources only call it on nonempty
slices; the `[]` case is an unreachable default). -/
def listMin : List ℚ → ℚ
  | [] => 0
  | x :: xs => xs.foldl min x

/-- Python `max` over a nonempty list (the sources only call it on nonempty
slices; the `[]` case is an unreachable default). -/
def listMax : List ℚ → ℚ
  | [] => 0
  | x :: xs => xs.foldl max x

/-- First-match association-list lookup, modelling Python `dict` access
(keys in the modelled dicts are unique). -/
def alookup {β : Type} : List (String × β) → String → Option β
  | [], _ => none
  | (k, v) :: rest, key => if k = key then some v else alookup rest key

/-- Python `dict` assignment `d[k] = v`: replaces the value of an existing
key, otherwise appends (CPython dicts preserve insertion order). -/
def ainsert {β : Type} : List (String × β) → String → β → List (String × β)
  | [], key, v => [(key, v)]
  | (k, w) :: rest, key, v =>
      if k = key then (k, v) :: rest else (k, w) :: ainsert rest key v

/-- `core/trading_pair.py` `PairStatus` enum. -/
inductive PairStatus where
  | ENABLED
  | DISABLED
  | ERROR
  | MAINTENANCE
deriving DecidableEq, Repr

/-- `core/trading_pair.py` `PriceData` (one tick).  The Python field `open`
is named `open_price` here because `open` is a Lean keyword. -/
structure PriceData where
  timestamp : ℚ
  symbol : String
  price : ℚ
  open_price : ℚ
  high : ℚ
  low : ℚ
  close : ℚ
  volume : ℚ
  source : String
deriving DecidableEq, Repr

/-- The `self.stats` dict of `TradingPair.__init__`. -/
structure PairStats where
  total_updates : ℕ
  successful_updates : ℕ
  failed_updates : ℕ
  first_update : Option ℚ
  last_successful_update : Option ℚ
  avg_price_24h : ℚ
  price_change_24h : ℚ
  volume_24h : ℚ
deriving DecidableEq, Repr

/-- Mutable state of `core/trading_pair.py` `TradingPair` (cosmetic fields
`display_name`, `color`, `icon` are omitted; no claim mentions them). -/
structure TradingPair where
  symbol : String
  enabled : Bool
  status : PairStatus
  is_streaming : Bool
  last_update : Option ℚ
  error_count : ℕ
  last_error : Option String
  update_interval : ℚ
  max_errors : ℕ
  retry_delay : ℚ
  price_history : List PriceData
  max_history_size : ℕ
  stats : PairStats
deriving DecidableEq, Repr

/-- `TradingPair.__init__`. -/
def initTradingPair (symbol : String) (enabled : Bool) : TradingPair where
  symbol := symbol
  enabled := enabled
  status := if enabled then PairStatus.ENABLED else PairStatus.DISABLED
  is_streaming := false
  last_update := none
  error_count := 0
  last_error := none
  update_interval := 5
  max_errors := 10
  retry_delay := 30
  price_history := []
  max_history_size := 1000
  stats :=
    { total_updates := 0
      successful_updates := 0
      failed_updates := 0
      first_update := none
      last_successful_update := none
      avg_price_24h := 0
      price_change_24h := 0
      volume_24h := 0 }

/-- Hour-of-day of a timestamp given in seconds since the epoch, as read by
`datetime.hour` (always in `0..23`). -/
def hourOf (t : ℚ) : ℤ :=
  ⌊t / 3600⌋ % 24

/-- Result dict of `TradingPair.get_price_range`. -/
structure PriceRange where
  min : ℚ
  max : ℚ
  avg : ℚ
  count : ℕ
deriving DecidableEq, Repr

/-- `TradingPair.get_price_range(hours)`.  The source computes the cutoff as
`datetime.now().replace(microsecond=0)` followed by
`replace(hour=cutoff_time.hour - hours)`; `datetime.replace` raises
`ValueError` whenever the new hour is outside `0..23`, which is modelled by
returning `none`.  When the replace succeeds the cutoff moves by whole hours
within the same day. -/
def get_price_range (p : TradingPair) (now : ℚ) (hours : ℤ) : Option PriceRange :=
  let base : ℚ := (⌊now⌋ : ℚ)
  let h : ℤ := hourOf base
  if h - hours < 0 ∨ 23 < h - hours then
    none
  else
    let cutoff : ℚ := base + 3600 * (((h - hours) : ℤ) - h : ℤ)
    let recent := (p.price_history.filter (fun d => cutoff ≤ d.timestamp)).map (·.price)
    if recent.isEmpty then
      some { min := 0, max := 0, avg := 0, count := 0 }
    else
      some { min := listMin recent, max := listMax recent,
             avg := recent.sum / recent.length, count := recent.length }

/-- `TradingPair._calculate_24h_stats`.  Returns the stats dict after the
in-place mutations that happened before control left the method, plus a flag
recording whether a `ValueError` escaped (the `replace(hour=hour-24)` calls
raise whenever `hour - 24` is outside `0..23`). -/
def calculate_24h_stats (p : TradingPair) (now : ℚ) : PairStats × Bool :=
  match get_price_range p now 24 with
  | none => (p.stats, true)
  | some range_data =>
      let s1 := { p.stats with avg_price_24h := range_data.avg }
      if 2 ≤ p.price_history.length then
        let current_price := ((p.price_history.getLast?).map (·.price)).getD 0
        let base : ℚ := (⌊now⌋ : ℚ)
        let h : ℤ := hourOf base
        if h - 24 < 0 ∨ 23 < h - 24 then
          (s1, true)
        else
          let cutoff : ℚ := base + 3600 * (((h - 24) : ℤ) - h : ℤ)
          let old_prices := (p.price_history.filter (fun d => d.timestamp ≤ cutoff)).map (·.price)
          match old_prices.getLast? with
          | some old_price =>
              ({ s1 with price_change_24h := (current_price - old_price) / old_price * 100 }, false)
          | none => ({ s1 with price_change_24h := 0 }, false)
      else
        (s1, false)

/-- `TradingPair._update_stats`: bumps the counters, then derives the 24h
stats; the flag records whether `_calculate_24h_stats` raised. -/
def update_stats (p : TradingPair) (t : PriceData) (now : ℚ) : TradingPair × Bool :=
  let p1 := { p with stats :=
    { p.stats with
        total_updates := p.stats.total_updates + 1
        last_successful_update := some t.timestamp
        first_update := match p.stats.first_update with
          | none => some t.timestamp
          | some u => some u } }
  let r := calculate_24h_stats p1 now
  ({ p1 with stats := r.1 }, r.2)

/-- `TradingPair.set_maintenance`. -/
def set_maintenance (p : TradingPair) (reason : String) : TradingPair :=
  { p with status := PairStatus.MAINTENANCE, is_streaming := false,
           last_error := some reason }

/-- `TradingPair._handle_error`. -/
def handle_error (p : TradingPair) (error_message : String) : TradingPair :=
  let p1 := { p with error_count := p.error_count + 1,
                     last_error := some error_message,
                     stats := { p.stats with failed_updates := p.stats.failed_updates + 1 } }
  if p1.max_errors ≤ p1.error_count then
    set_maintenance p1 "Muitos erros consecutivos"
  else
    p1

/-- The two history lines of `TradingPair.add_price_data`: append the tick,
then keep only the last `max_history_size` entries. -/
def trimmedHistory (p : TradingPair) (price_data : PriceData) : List PriceData :=
  let h0 := p.price_history ++ [price_data]
  if p.max_history_size < h0.length then h0.drop (h0.length - p.max_history_size) else h0

/-- `TradingPair.add_price_data`: appends the tick, trims the history to the
last `max_history_size` entries, then updates the stats inside a
`try`/`except` whose handler is `_handle_error`; only on the (exception-free)
path are `last_update`, `successful_updates` and the error-count reset
reached. -/
def add_price_data (p : TradingPair) (price_data : PriceData) (now : ℚ) : TradingPair :=
  let p1 := { p with price_history := trimmedHistory p price_data }
  let r := update_stats p1 price_data now
  if r.2 then
    handle_error r.1 "Erro ao adicionar dados de preco"
  else
    { r.1 with
        last_update := some now
        stats := { r.1.stats with successful_updates := r.1.stats.successful_updates + 1 }
        error_count := 0 }

/-- `TradingPair.enable`. -/
def pair_enable (p : TradingPair) : TradingPair :=
  { p with enabled := true, status := PairStatus.ENABLED, error_count := 0 }

/-- `TradingPair.disable`. -/
def pair_disable (p : TradingPair) : TradingPair :=
  { p with enabled := false, status := PairStatus.DISABLED, is_streaming := false }

/-- One keyword argument of `TradingPair.update_config` (the method applies
`setattr(self, key, value)` for any existing attribute; the constructors
cover the modelled mutable attributes). -/
inductive ConfigField where
  | enabled (b : Bool)
  | is_streaming (b : Bool)
  | status (s : PairStatus)
  | error_count (n : ℕ)
  | update_interval (q : ℚ)
  | max_errors (n : ℕ)
  | retry_delay (q : ℚ)
  | max_history_size (n : ℕ)
deriving DecidableEq, Repr

/-- Effect of a single `setattr` performed by `TradingPair.update_config`. -/
def applyConfigField (p : TradingPair) : ConfigField → TradingPair
  | ConfigField.enabled b => { p with enabled := b }
  | ConfigField.is_streaming b => { p with is_streaming := b }
  | ConfigField.status s => { p with status := s }
  | ConfigField.error_count n => { p with error_count := n }
  | ConfigField.update_interval q => { p with update_interval := q }
  | ConfigField.max_errors n => { p with max_errors := n }
  | ConfigField.retry_delay q => { p with retry_delay := q }
  | ConfigField.max_history_size n => { p with max_history_size := n }

/-- `TradingPair.update_config(**kwargs)`: applies the keyword assignments in
order. -/
def update_config (p : TradingPair) (kwargs : List ConfigField) : TradingPair :=
  kwargs.foldl applyConfigField p

/-- `TradingPair.start_streaming` (returns whether streaming started and the
new state). -/
def start_streaming (p : TradingPair) : Bool × TradingPair :=
  if p.enabled = false then
    (false, p)
  else if p.status = PairStatus.MAINTENANCE then
    (false, p)
  else
    (true, { p with is_streaming := true, status := PairStatus.ENABLED })

/-- `TradingPair.stop_streaming`. -/
def stop_streaming (p : TradingPair) : TradingPair :=
  { p with is_streaming := false }

/-- `TradingPair.is_streaming_healthy`. -/
def is_streaming_healthy (p : TradingPair) (now : ℚ) : Bool :=
  if p.is_streaming = false then
    false
  else
    match p.last_update with
    | some lu =>
        if p.update_interval * 3 < now - lu then false
        else if p.max_errors ≤ p.error_count then false
        else true
    | none =>
        if p.max_errors ≤ p.error_count then false
        else true

/-- `TradingPair.reset_errors`. -/
def reset_errors (p : TradingPair) : TradingPair :=
  let p1 := { p with error_count := 0, last_error := none }
  if p1.status = PairStatus.MAINTENANCE ∧ p1.enabled = true then
    { p1 with status := PairStatus.ENABLED }
  else
    p1

/-- One operation of the `TradingPair` public interface, as quantified over
by the invariant claims. -/
inductive PairOp where
  | enable
  | disable
  | config (kwargs : List ConfigField)
  | startStream
  | stopStream
  | addPrice (t : PriceData) (now : ℚ)
  | resetErrors
deriving Repr

/-- Apply one `PairOp` to the instrument state. -/
def applyOp (p : TradingPair) : PairOp → TradingPair
  | PairOp.enable => pair_enable p
  | PairOp.disable => pair_disable p
  | PairOp.config kwargs => update_config p kwargs
  | PairOp.startStream => (start_streaming p).2
  | PairOp.stopStream => stop_streaming p
  | PairOp.addPrice t now => add_price_data p t now
  | PairOp.resetErrors => reset_errors p

/-- Apply a sequence of operations in order. -/
def applyOps (p : TradingPair) (ops : List PairOp) : TradingPair :=
  ops.foldl applyOp p

/-! ### Helper lemmas about the instrument model -/

theorem hourOf_nonneg (t : ℚ) : 0 ≤ hourOf t :=
  Int.emod_nonneg _ (by norm_num)

theorem hourOf_lt (t : ℚ) : hourOf t < 24 :=
  Int.emod_lt_of_pos _ (by norm_num)

/-- The 24-hour cutoff always raises: `hour - 24` is negative for every
possible value of `datetime.hour`, so `replace` rejects it. -/
theorem get_price_range_24_none (p : TradingPair) (now : ℚ) :
    get_price_range p now 24 = none := by
  have h1 := hourOf_lt ((⌊now⌋ : ℚ))
  simp only [get_price_range]
  rw [if_pos]
  exact Or.inl (by linarith)

theorem calculate_24h_stats_raises (p : TradingPair) (now : ℚ) :
    calculate_24h_stats p now = (p.stats, true) := by
  simp only [calculate_24h_stats, get_price_range_24_none]

/-- The stats fields mutated by `_update_stats` before the 24h computation
raises. -/
def bumpedStats (p : TradingPair) (t : PriceData) : PairStats :=
  { p.stats with
      total_updates := p.stats.total_updates + 1
      last_successful_update := some t.timestamp
      first_update := match p.stats.first_update with
        | none => some t.timestamp
        | some u => some u }

theorem update_stats_raises (p : TradingPair) (t : PriceData) (now : ℚ) :
    update_stats p t now = ({ p with stats := bumpedStats p t }, true) := by
  simp only [update_stats, calculate_24h_stats_raises, bumpedStats]

/-- Every `add_price_data` call ends in the exception handler. -/
theorem add_price_data_eq (p : TradingPair) (t : PriceData) (now : ℚ) :
    add_price_data p t now =
      handle_error
        { p with price_history := trimmedHistory p t,
                 stats := bumpedStats { p with price_history := trimmedHistory p t } t }
        "Erro ao adicionar dados de preco" := by
  simp only [add_price_data, update_stats_raises, if_pos]

theorem add_price_data_error_count (p : TradingPair) (t : PriceData) (now : ℚ) :
    (add_price_data p t now).error_count = p.error_count + 1 := by
  rw [add_price_data_eq]
  simp only [handle_error, set_maintenance]
  split <;> rfl

theorem add_price_data_last_update (p : TradingPair) (t : PriceData) (now : ℚ) :
    (add_price_data p t now).last_update = p.last_update := by
  rw [add_price_data_eq]
  simp only [handle_error, set_maintenance]
  split <;> rfl

theorem add_price_data_price_history (p : TradingPair) (t : PriceData) (now : ℚ) :
    (add_price_data p t now).price_history = trimmedHistory p t := by
  rw [add_price_data_eq]
  simp only [handle_error, set_maintenance]
  split <;> rfl

theorem add_price_data_stats (p : TradingPair) (t : PriceData) (now : ℚ) :
    (add_price_data p t now).stats =
      { bumpedStats p t with
          failed_updates := p.stats.failed_updates + 1 } := by
  rw [add_price_data_eq]
  simp only [handle_error, set_maintenance, bumpedStats]
  split <;> rfl

theorem add_price_data_enabled (p : TradingPair) (t : PriceData) (now : ℚ) :
    (add_price_data p t now).enabled = p.enabled := by
  rw [add_price_data_eq]
  simp only [handle_error, set_maintenance]
  split <;> rfl

theorem add_price_data_max_errors (p : TradingPair) (t : PriceData) (now : ℚ) :
    (add_price_data p t now).max_errors = p.max_errors := by
  rw [add_price_data_eq]
  simp only [handle_error, set_maintenance]
  split <;> rfl

theorem add_price_data_max_history_size (p : TradingPair) (t : PriceData) (now : ℚ) :
    (add_price_data p t now).max_history_size = p.max_history_size := by
  rw [add_price_data_eq]
  simp only [handle_error, set_maintenance]
  split <;> rfl

theorem add_price_data_status (p : TradingPair) (t : PriceData) (now : ℚ) :
    (add_price_data p t now).status =
      if p.max_errors ≤ p.error_count + 1 then PairStatus.MAINTENANCE else p.status := by
  rw [add_price_data_eq]
  simp only [handle_error, set_maintenance]
  split <;> rfl

theorem add_price_data_is_streaming (p : TradingPair) (t : PriceData) (now : ℚ) :
    (add_price_data p t now).is_streaming =
      if p.max_errors ≤ p.error_count + 1 then false else p.is_streaming := by
  rw [add_price_data_eq]
  simp only [handle_error, set_maintenance]
  split <;> rfl

theorem trimmedHistory_length (p : TradingPair) (t : PriceData) :
    (trimmedHistory p t).length = min (p.price_history.length + 1) p.max_history_size := by
  simp only [trimmedHistory, List.length_append, List.length_cons, List.length_nil]
  split <;> rename_i h <;> simp only [List.length_drop, List.length_append,
    List.length_cons, List.length_nil] <;> omega

theorem trimmedHistory_suffix (p : TradingPair) (t : PriceData) :
    (trimmedHistory p t) <:+ p.price_history ++ [t] := by
  simp only [trimmedHistory]
  split
  · exact List.drop_suffix _ _
  · exact List.suffix_refl _

theorem trimmedHistory_getLast (p : TradingPair) (t : PriceData)
    (hmax : 0 < p.max_history_size) :
    (trimmedHistory p t).getLast? = some t := by
  simp only [trimmedHistory, List.length_append, List.length_cons, List.length_nil]
  split <;> rename_i h
  · rw [List.drop_append_of_le_length (by omega), List.getLast?_concat]
  · exact List.getLast?_concat _

theorem add_price_data_length_le (p : TradingPair) (t : PriceData) (now : ℚ) :
    (add_price_data p t now).price_history.length ≤ p.max_history_size := by
  rw [add_price_data_price_history, trimmedHistory_length]
  omega

/-- Feed a sequence of ticks (each with its wall-clock instant) to a freshly
constructed instrument. -/
def applyTicks (ticks : List (PriceData × ℚ)) : TradingPair :=
  ticks.foldl (fun p x => add_price_data p x.1 x.2) (initTradingPair "BTCUSDT" true)

theorem foldl_add_max_history_size (ticks : List (PriceData × ℚ)) (p : TradingPair) :
    (ticks.foldl (fun q x => add_price_data q x.1 x.2) p).max_history_size =
      p.max_history_size := by
  induction ticks generalizing p with
  | nil => rfl
  | cons x xs ih =>
      simp only [List.foldl_cons]
      rw [ih, add_price_data_max_history_size]

theorem foldl_add_length_le (ticks : List (PriceData × ℚ)) (p : TradingPair)
    (h : p.price_history.length ≤ p.max_history_size) :
    (ticks.foldl (fun q x => add_price_data q x.1 x.2) p).price_history.length ≤
      p.max_history_size := by
  induction ticks generalizing p with
  | nil => exact h
  | cons x xs ih =>
      simp only [List.foldl_cons]
      have h1 : (add_price_data p x.1 x.2).price_history.length ≤
          (add_price_data p x.1 x.2).max_history_size := by
        rw [add_price_data_max_history_size]
        exact add_price_data_length_le p x.1 x.2
      have h2 := ih (add_price_data p x.1 x.2) h1
      rwa [add_price_data_max_history_size] at h2

theorem applyTicks_max_history_size (ticks : List (PriceData × ℚ)) :
    (applyTicks ticks).max_history_size = 1000 :=
  foldl_add_max_history_size ticks _

/-- C6: after any sequence of `addTick` calls the in-memory history holds at
most 1000 entries; each call appends the new tick as the newest entry and
only ever evicts from the front (the result is a suffix of the old history
plus the new tick). -/
theorem claim6_history_cap (ticks : List (PriceData × ℚ)) :
    (applyTicks ticks).price_history.length ≤ 1000
  ∧ (∀ t now, (add_price_data (applyTicks ticks) t now).price_history.getLast? = some t)
  ∧ (∀ t now, (add_price_data (applyTicks ticks) t now).price_history <:+
        (applyTicks ticks).price_history ++ [t]) := by
  refine ⟨foldl_add_length_le ticks _ (by norm_num [initTradingPair]), ?_, ?_⟩
  · intro t now
    rw [add_price_data_price_history]
    exact trimmedHistory_getLast _ t (by rw [applyTicks_max_history_size]; norm_num)
  · intro t now
    rw [add_price_data_price_history]
    exact trimmedHistory_suffix _ t

/-- C10: a streaming pair that has never recorded a tick (`last_update`
unset) skips the staleness check, so `is_streaming_healthy` is true exactly
when the error counter is below the threshold. -/
theorem claim10_healthy_without_update (p : TradingPair) (now : ℚ)
    (h1 : p.is_streaming = true) (h2 : p.last_update = none)
    (h3 : p.error_count < p.max_errors) :
    is_streaming_healthy p now = true := by
  simp only [is_streaming_healthy, h1, h2]
  rw [if_neg (by simp), if_neg (by omega)]

/-- A fresh instrument with streaming switched on and no tick yet. -/
def pairStreamingEx : TradingPair :=
  { initTradingPair "BTCUSDT" true with is_streaming := true }

theorem claim10_witness :
    pairStreamingEx.is_streaming = true
  ∧ pairStreamingEx.last_update = none
  ∧ pairStreamingEx.error_count < pairStreamingEx.max_errors
  ∧ is_streaming_healthy pairStreamingEx 123 = true :=
  ⟨rfl, rfl, by decide,
    claim10_healthy_without_update pairStreamingEx 123 rfl rfl (by decide)⟩

/-- A tick with a negative price (as would come from a data source, since no
validation happens in `add_price_data`). -/
def tickNeg : PriceData :=
  { timestamp := 10, symbol := "BTCUSDT", price := -1, open_price := -1,
    high := -1, low := -1, close := -1, volume := 0, source := "Binance" }

/-- C1 counterexample: `add_price_data` accepts a tick with `price = -1`
(no `price > 0` validation), and afterwards `error_count = 1` (not reset
to 0) and `last_update` is still unset (not stamped) — the 24h-stats
derivation raises `ValueError` and the error handler runs instead. -/
theorem claim1_counterexample :
    ((add_price_data (initTradingPair "BTCUSDT" true) tickNeg 20).price_history.map
        (fun d => d.price) = [-1])
  ∧ (add_price_data (initTradingPair "BTCUSDT" true) tickNeg 20).error_count = 1
  ∧ (add_price_data (initTradingPair "BTCUSDT" true) tickNeg 20).last_update = none := by
  refine ⟨?_, ?_, ?_⟩
  · rw [add_price_data_price_history]
    simp [trimmedHistory, initTradingPair, tickNeg]
  · rw [add_price_data_error_count]
    rfl
  · rw [add_price_data_last_update]
    rfl

/-- C1 (amended): `addTick` performs no price validation; it appends the
tick and trims the history, but the 24h-stats derivation always raises
(`replace` is given `hour − 24 < 0`), so the error handler runs:
`errorCount` is incremented (never reset), `lastUpdate` is not stamped, the
24h statistics are left unchanged, and once the incremented counter reaches
`maxErrors` the pair enters MAINTENANCE and streaming stops. -/
theorem claim1_addTick_behaviour (p : TradingPair) (t : PriceData) (now : ℚ) :
    (add_price_data p t now).price_history = trimmedHistory p t
  ∧ (add_price_data p t now).error_count = p.error_count + 1
  ∧ (add_price_data p t now).last_update = p.last_update
  ∧ (add_price_data p t now).stats.successful_updates = p.stats.successful_updates
  ∧ (add_price_data p t now).stats.failed_updates = p.stats.failed_updates + 1
  ∧ (add_price_data p t now).stats.avg_price_24h = p.stats.avg_price_24h
  ∧ (add_price_data p t now).stats.price_change_24h = p.stats.price_change_24h
  ∧ (p.max_errors ≤ p.error_count + 1 →
      (add_price_data p t now).status = PairStatus.MAINTENANCE
      ∧ (add_price_data p t now).is_streaming = false) := by
  refine ⟨add_price_data_price_history p t now, add_price_data_error_count p t now,
    add_price_data_last_update p t now, ?_, ?_, ?_, ?_, ?_⟩
  · simp [add_price_data_stats, bumpedStats]
  · simp [add_price_data_stats, bumpedStats]
  · simp [add_price_data_stats, bumpedStats]
  · simp [add_price_data_stats, bumpedStats]
  · intro h
    rw [add_price_data_status, add_price_data_is_streaming]
    rw [if_pos h, if_pos h]
    exact ⟨rfl, rfl⟩

/-- An instrument one error short of the maintenance threshold. -/
def pairNineErrors : TradingPair :=
  { initTradingPair "BTCUSDT" true with error_count := 9 }

/-- A well-formed tick. -/
def tickPos : PriceData :=
  { timestamp := 30, symbol := "BTCUSDT", price := 45000, open_price := 44990,
    high := 45010, low := 44980, close := 45000, volume := 1000, source := "Binance" }

theorem claim1_witness :
    pairNineErrors.max_errors ≤ pairNineErrors.error_count + 1
  ∧ (add_price_data pairNineErrors tickPos 40).error_count = pairNineErrors.error_count + 1
  ∧ (add_price_data pairNineErrors tickPos 40).status = PairStatus.MAINTENANCE
  ∧ (add_price_data pairNineErrors tickPos 40).is_streaming = false :=
  ⟨by decide, (claim1_addTick_behaviour pairNineErrors tickPos 40).2.1,
    ((claim1_addTick_behaviour pairNineErrors tickPos 40).2.2.2.2.2.2.2 (by decide)).1,
    ((claim1_addTick_behaviour pairNineErrors tickPos 40).2.2.2.2.2.2.2 (by decide)).2⟩

/-- The streaming-configuration keys documented for `updateConfig`
(`update_interval`, `max_errors`, `retry_delay`). -/
def cfgOk : ConfigField → Bool
  | ConfigField.update_interval _ => true
  | ConfigField.max_errors _ => true
  | ConfigField.retry_delay _ => true
  | _ => false

/-- An operation whose `update_config` kwargs are restricted to the
documented streaming-configuration keys. -/
def opOk : PairOp → Bool
  | PairOp.config kwargs => kwargs.all cfgOk
  | _ => true

/-- The streaming invariant claimed for the instrument state machine. -/
def StreamInv (p : TradingPair) : Prop :=
  p.is_streaming = true → p.enabled = true ∧ p.status ≠ PairStatus.MAINTENANCE

theorem applyConfigField_ok (p : TradingPair) (f : ConfigField) (hf : cfgOk f = true) :
    (applyConfigField p f).enabled = p.enabled
  ∧ (applyConfigField p f).status = p.status
  ∧ (applyConfigField p f).is_streaming = p.is_streaming := by
  cases f <;> simp_all [cfgOk, applyConfigField]

theorem update_config_ok (p : TradingPair) (kwargs : List ConfigField)
    (h : kwargs.all cfgOk = true) :
    (update_config p kwargs).enabled = p.enabled
  ∧ (update_config p kwargs).status = p.status
  ∧ (update_config p kwargs).is_streaming = p.is_streaming := by
  induction kwargs generalizing p with
  | nil => exact ⟨rfl, rfl, rfl⟩
  | cons f fs ih =>
      simp only [List.all_cons, Bool.and_eq_true] at h
      have h1 := applyConfigField_ok p f h.1
      have h2 := ih (applyConfigField p f) h.2
      exact ⟨h2.1.trans h1.1, h2.2.1.trans h1.2.1, h2.2.2.trans h1.2.2⟩

theorem streamInv_applyOp (p : TradingPair) (op : PairOp)
    (hp : StreamInv p) (hop : opOk op = true) : StreamInv (applyOp p op) := by
  cases op with
  | enable =>
      intro _
      exact ⟨rfl, by simp [applyOp, pair_enable]⟩
  | disable =>
      intro h
      simp [applyOp, pair_disable] at h
  | config kwargs =>
      intro h
      have hk := update_config_ok p kwargs hop
      simp only [applyOp] at h ⊢
      rw [hk.2.2] at h
      rw [hk.1, hk.2.1]
      exact hp h
  | startStream =>
      intro h
      simp only [applyOp, start_streaming] at h ⊢
      split_ifs at h ⊢ with he hm
      · exact absurd (hp h).1 (by simp [he])
      · exact hp h
      · exact ⟨by simpa using he, by simp⟩
  | stopStream =>
      intro h
      simp [applyOp, stop_streaming] at h
  | addPrice t now =>
      intro h
      simp only [applyOp] at h ⊢
      rw [add_price_data_is_streaming] at h
      rw [add_price_data_enabled, add_price_data_status]
      split at h
      · exact absurd h (by simp)
      · rename_i hcond
        rw [if_neg hcond]
        exact hp h
  | resetErrors =>
      intro h
      simp only [applyOp, reset_errors] at h ⊢
      split_ifs at h ⊢ with hc
      · exact absurd hc.1 (hp h).2
      · exact hp h

theorem streamInv_applyOps (p : TradingPair) (ops : List PairOp)
    (hp : StreamInv p) (hops : ops.all opOk = true) : StreamInv (applyOps p ops) := by
  induction ops generalizing p with
  | nil => exact hp
  | cons op rest ih =>
      simp only [List.all_cons, Bool.and_eq_true] at hops
      exact ih (applyOp p op) (streamInv_applyOp p op hp hops.1) hops.2

/-- C4 counterexample: `update_config` applies `setattr` for any existing
attribute, so `update_config(enabled=False)` on a streaming pair yields a
state with `is_streaming` set and `enabled` cleared, violating the claimed
invariant. -/
theorem claim4_counterexample :
    (applyOps (initTradingPair "BTCUSDT" true)
        [PairOp.startStream, PairOp.config [ConfigField.enabled false]]).is_streaming = true
  ∧ (applyOps (initTradingPair "BTCUSDT" true)
        [PairOp.startStream, PairOp.config [ConfigField.enabled false]]).enabled = false := by
  constructor <;> rfl

/-- C4 (amended): with `update_config` restricted to the documented
streaming-configuration keys (`update_interval`, `max_errors`,
`retry_delay`), every state reachable from a fresh instrument satisfies
`is_streaming → enabled ∧ status ≠ MAINTENANCE`; whenever an `addTick` step
leaves the error counter at or above `maxErrors` the resulting state is in
MAINTENANCE with streaming stopped; and `disable` always clears
`is_streaming`. -/
theorem claim4_invariants (ops : List PairOp) (hops : ops.all opOk = true) :
    StreamInv (applyOps (initTradingPair "BTCUSDT" true) ops)
  ∧ (∀ p t now, (add_price_data p t now).max_errors ≤ (add_price_data p t now).error_count →
      (add_price_data p t now).status = PairStatus.MAINTENANCE
      ∧ (add_price_data p t now).is_streaming = false)
  ∧ (∀ p, (pair_disable p).is_streaming = false) := by
  refine ⟨streamInv_applyOps _ ops (by intro h; simp [initTradingPair] at h) hops, ?_, ?_⟩
  · intro p t now h
    rw [add_price_data_max_errors, add_price_data_error_count] at h
    rw [add_price_data_status, add_price_data_is_streaming, if_pos h, if_pos h]
    exact ⟨rfl, rfl⟩
  · intro p
    rfl

theorem claim4_witness :
    ([PairOp.startStream, PairOp.config [ConfigField.max_errors 5]].all opOk = true)
  ∧ (StreamInv (applyOps (initTradingPair "BTCUSDT" true)
        [PairOp.startStream, PairOp.config [ConfigField.max_errors 5]])) :=
  ⟨by decide,
    (claim4_invariants [PairOp.startStream, PairOp.config [ConfigField.max_errors 5]]
      (by decide)).1⟩

/-! ### `trading_analyzer.py` / `trading_analyzer_fixed.py` -/

/-- Python `str.endswith`, on the character lists of the strings. -/
def endswith (s suffix : String) : Bool :=
  suffix.data.isSuffixOf s.data

/-- The bullish-pattern test used throughout both analyzers:
`pattern.endswith('_BUY') or pattern == 'DOUBLE_BOTTOM'`. -/
def isBullish (pattern : String) : Bool :=
  endswith pattern "_BUY" || pattern == "DOUBLE_BOTTOM"

/-- `SignalUniquenesSystem.add_signal_hash`.  The Python `set` of hashes is
modelled as a duplicate-free list; `list(set)` enumerates a Python set in an
order that is unrelated to insertion order (string hashing is even
randomised per process), so the enumeration used by the compaction step is
an explicit `reorder` parameter, constrained to a permutation in the
theorems.  Hash values are opaque tokens, so the element type is generic. -/
def add_signal_hash {α : Type} [DecidableEq α] (reorder : List α → List α)
    (signal_hash : α) (hashes : List α) : List α :=
  let s1 := if signal_hash ∈ hashes then hashes else hashes ++ [signal_hash]
  if 1000 < s1.length then
    let l := reorder s1
    l.drop (l.length - 800)
  else
    s1

/-- `SignalUniquenesSystem.is_signal_unique`. -/
def is_signal_unique (hashes : List String) (signal_hash : String) : Bool :=
  !(decide (signal_hash ∈ hashes))

/-- `SignalUniquenesSystem.cooldown_periods` with the 1-hour default of
`is_pattern_in_cooldown`, in seconds. -/
def cooldown_period (pattern_type : String) : ℚ :=
  if pattern_type = "DOUBLE_BOTTOM" then 14400
  else if pattern_type = "HEAD_AND_SHOULDERS" then 21600
  else if pattern_type = "TRIANGLE_BREAKOUT_UP" then 7200
  else if pattern_type = "TRIANGLE_BREAKOUT_DOWN" then 7200
  else if pattern_type = "INDICATORS_BUY" then 1800
  else if pattern_type = "INDICATORS_SELL" then 1800
  else 3600

/-- `SignalUniquenesSystem.is_pattern_in_cooldown`. -/
def is_pattern_in_cooldown (cooldowns : List (String × ℚ)) (pattern_type : String)
    (now : ℚ) : Bool :=
  match alookup cooldowns pattern_type with
  | none => false
  | some t => decide (now - t < cooldown_period pattern_type)

/-- `SignalUniquenesSystem.set_pattern_cooldown`. -/
def set_pattern_cooldown (cooldowns : List (String × ℚ)) (pattern_type : String)
    (now : ℚ) : List (String × ℚ) :=
  ainsert cooldowns pattern_type now

/-- C7 counterexample: with the uniqueness set holding exactly 1000 hashes,
inserting a hash that is already present leaves the set at 1000 entries —
no compaction to 800 happens, contradicting the claim as stated. -/
theorem claim7_counterexample :
    (List.range 1000).length = 1000
  ∧ add_signal_hash id (0 : ℕ) (List.range 1000) = List.range 1000
  ∧ (add_signal_hash id (0 : ℕ) (List.range 1000)).length = 1000 := by
  refine ⟨by simp, ?_, ?_⟩ <;>
    simp [add_signal_hash, List.mem_range]

/-- C7 (amended): the size of the uniqueness set never exceeds 1000 after
`add_signal_hash`, and when the set holds exactly 1000 hashes and the
inserted hash is new, the set is compacted to exactly 800 entries (the 800
kept are the tail of an arbitrary enumeration of the Python set, not
necessarily the most recently added ones); `reorder` ranges over
permutations, modelling that enumeration. -/
theorem claim7_bound {α : Type} [DecidableEq α] (reorder : List α → List α)
    (hre : ∀ l, List.Perm (reorder l) l) (signal_hash : α) (hashes : List α) :
    (hashes.length ≤ 1000 → (add_signal_hash reorder signal_hash hashes).length ≤ 1000)
  ∧ (hashes.length = 1000 → signal_hash ∉ hashes →
      (add_signal_hash reorder signal_hash hashes).length = 800) := by
  constructor
  · intro hlen
    simp only [add_signal_hash]
    split <;> rename_i hmem
    · split <;> rename_i hgt
      · rw [List.length_drop, (hre _).length_eq]
        omega
      · exact hlen
    · split <;> rename_i hgt
      · rw [List.length_drop, (hre _).length_eq]
        simp only [List.length_append, List.length_cons, List.length_nil] at hgt ⊢
        omega
      · simp only [List.length_append, List.length_cons, List.length_nil] at hgt ⊢
        omega
  · intro hlen hmem
    simp only [add_signal_hash, if_neg hmem]
    have hlen1 : (hashes ++ [signal_hash]).length = 1001 := by
      simp [hlen]
    rw [if_pos (by omega), List.length_drop, (hre _).length_eq, hlen1]

theorem claim7_witness :
    (List.range 1000).length = 1000
  ∧ (1000 : ℕ) ∉ List.range 1000
  ∧ (add_signal_hash id (1000 : ℕ) (List.range 1000)).length = 800 :=
  ⟨by simp, by simp,
    (claim7_bound id (fun l => List.Perm.refl l) 1000 (List.range 1000)).2
      (by simp) (by simp)⟩

/-- Indicator dictionaries: a key may be absent, or present with value
`None` (`none`) or a number. -/
abbrev Indicators := List (String × Option ℚ)

/-- The check `ind in indicators and indicators[ind] is not None` used by
`validate_market_conditions` (negated in the source's `missing` filter). -/
def indAvail (indicators : Indicators) (key : String) : Bool :=
  match alookup indicators key with
  | some (some _) => true
  | _ => false

/-- Python truthiness of an optional float (`None` and `0.0` are falsy). -/
def truthyOpt (o : Option ℚ) : Bool :=
  match o with
  | some v => decide (v ≠ 0)
  | none => false

/-- `SignalValidator.validate_market_conditions` of `trading_analyzer.py`:
only the presence of `RSI`, `SMA_12`, `SMA_30` is checked. -/
def validate_market_conditions (indicators : Indicators) : Bool × String :=
  if indicators.isEmpty then (false, "Indicadores nao disponiveis")
  else
    let missing := ["RSI", "SMA_12", "SMA_30"].filter (fun k => !(indAvail indicators k))
    if !missing.isEmpty then (false, "Indicadores em falta")
    else (true, "Condicoes adequadas")

/-- `SignalValidator.validate_market_conditions` of
`trading_analyzer_fixed.py`: additionally rejects when both Bollinger bands
are present and truthy and the band width exceeds 10% of the lower band. -/
def validate_market_conditions_fixed (indicators : Indicators) : Bool × String :=
  if indicators.isEmpty then (false, "Indicadores nao disponiveis")
  else
    let missing := ["RSI", "SMA_12", "SMA_30"].filter (fun k => !(indAvail indicators k))
    if !missing.isEmpty then (false, "Indicadores em falta")
    else
      if (alookup indicators "BB_UPPER").isSome && (alookup indicators "BB_LOWER").isSome then
        let bb_upper := (alookup indicators "BB_UPPER").getD none
        let bb_lower := (alookup indicators "BB_LOWER").getD none
        if truthyOpt bb_upper && truthyOpt bb_lower then
          if 10 < (bb_upper.getD 0 - bb_lower.getD 0) / bb_lower.getD 0 * 100 then
            (false, "Mercado muito volatil para trading seguro")
          else (true, "Condicoes adequadas")
        else (true, "Condicoes adequadas")
      else (true, "Condicoes adequadas")

/-- A market whose Bollinger band width is 100% of the lower band, with all
required indicators present. -/
def indVolatile : Indicators :=
  [("RSI", some 50), ("SMA_12", some 1), ("SMA_30", some 1),
   ("BB_UPPER", some 100), ("BB_LOWER", some 50)]

/-- C9 counterexample: `trading_analyzer.py`'s `validate_market_conditions`
accepts a market whose Bollinger band width is 100% of the lower band —
there is no volatility rejection in that variant, contradicting the claimed
"exactly when". -/
theorem claim9_counterexample :
    (validate_market_conditions indVolatile).1 = true
  ∧ ((100 : ℚ) - 50) / 50 * 100 > 10 := by
  constructor
  · with_unfolding_all decide
  · norm_num

theorem missing_filter_isEmpty (indicators : Indicators) :
    ((["RSI", "SMA_12", "SMA_30"].filter (fun k => !(indAvail indicators k))).isEmpty) =
      (indAvail indicators "RSI" && indAvail indicators "SMA_12"
        && indAvail indicators "SMA_30") := by
  cases h1 : indAvail indicators "RSI" <;> cases h2 : indAvail indicators "SMA_12" <;>
    cases h3 : indAvail indicators "SMA_30" <;> simp [List.filter, h1, h2, h3]

/-- C9 (amended): in `trading_analyzer_fixed.py`, `validate_market_conditions`
rejects exactly when one of `RSI`, `SMA_12`, `SMA_30` is absent or `None`,
or when both Bollinger bands are present and truthy (non-`None`, non-zero)
and `(BB_UPPER − BB_LOWER)/BB_LOWER` exceeds 10%.  (`trading_analyzer.py`
omits the volatility clause entirely — see the counterexample.) -/
theorem claim9_volatility_rule (indicators : Indicators) :
    (validate_market_conditions_fixed indicators).1 = false ↔
      ((indAvail indicators "RSI" = false ∨ indAvail indicators "SMA_12" = false
          ∨ indAvail indicators "SMA_30" = false)
        ∨ ((alookup indicators "BB_UPPER").isSome = true
            ∧ (alookup indicators "BB_LOWER").isSome = true
            ∧ truthyOpt ((alookup indicators "BB_UPPER").getD none) = true
            ∧ truthyOpt ((alookup indicators "BB_LOWER").getD none) = true
            ∧ 10 < (((alookup indicators "BB_UPPER").getD none).getD 0
                    - ((alookup indicators "BB_LOWER").getD none).getD 0)
                    / ((alookup indicators "BB_LOWER").getD none).getD 0 * 100)) := by
  by_cases he : indicators.isEmpty
  · rw [List.isEmpty_iff.mp he]
    simp [validate_market_conditions_fixed, indAvail, alookup]
  · cases ha : indAvail indicators "RSI" <;>
    cases hb : indAvail indicators "SMA_12" <;>
    cases hc : indAvail indicators "SMA_30" <;>
    cases hu : (alookup indicators "BB_UPPER").isSome <;>
    cases hl2 : (alookup indicators "BB_LOWER").isSome <;>
    cases ht1 : truthyOpt ((alookup indicators "BB_UPPER").getD none) <;>
    cases ht2 : truthyOpt ((alookup indicators "BB_LOWER").getD none) <;>
    by_cases hv : (10:ℚ) < (((alookup indicators "BB_UPPER").getD none).getD 0
                    - ((alookup indicators "BB_LOWER").getD none).getD 0)
                    / ((alookup indicators "BB_LOWER").getD none).getD 0 * 100 <;>
    simp [validate_market_conditions_fixed, he, missing_filter_isEmpty,
      ha, hb, hc, hu, hl2, ht1, ht2, hv]

/-- Lowest low of the 14-sample window ending at `idx`
(`lows[idx-k_period+1 : idx+1]` with `k_period = 14`). -/
def windowLow (lows : List ℚ) (idx : ℕ) : ℚ :=
  listMin ((lows.drop (idx - 13)).take 14)

/-- Highest high of the 14-sample window ending at `idx`. -/
def windowHigh (highs : List ℚ) (idx : ℕ) : ℚ :=
  listMax ((highs.drop (idx - 13)).take 14)

/-- The %K value at index `idx`, per the formula both `stochastic`
implementations use (`50` when the window is flat). -/
def kValueAt (highs lows closes : List ℚ) (idx : ℕ) : ℚ :=
  if windowHigh highs idx = windowLow lows idx then 50
  else 100 * (closes.getD idx 0 - windowLow lows idx)
        / (windowHigh highs idx - windowLow lows idx)

/-- `TechnicalIndicators.stochastic` of `trading_analyzer.py`
(`d_percent = k_percent  # Simplificado`). -/
def stochastic (highs lows closes : List ℚ) : Option (ℚ × ℚ) :=
  if closes.length < 14 then none
  else
    let lowest_low := listMin (lows.drop (lows.length - 14))
    let highest_high := listMax (highs.drop (highs.length - 14))
    let k_percent := if highest_high = lowest_low then 50
      else 100 * (closes.getLast?.getD 0 - lowest_low) / (highest_high - lowest_low)
    some (k_percent, k_percent)

/-- `TechnicalIndicators.stochastic` of `trading_analyzer_fixed.py`: %D is
the mean of up to three reconstructed %K values, where a window whose high
equals its low contributes nothing (it is skipped, not counted as 50). -/
def stochastic_fixed (highs lows closes : List ℚ) : Option (ℚ × ℚ) :=
  if closes.length < 14 then none
  else
    let lowest_low := listMin (lows.drop (lows.length - 14))
    let highest_high := listMax (highs.drop (highs.length - 14))
    let k_percent := if highest_high = lowest_low then 50
      else 100 * (closes.getLast?.getD 0 - lowest_low) / (highest_high - lowest_low)
    let d_percent :=
      if 14 + 3 - 1 ≤ closes.length then
        let recent_k_values := (List.range 3).filterMap (fun i =>
          let idx := closes.length - 1 - i
          if 13 ≤ idx then
            if windowHigh highs idx = windowLow lows idx then none
            else some (100 * (closes.getD idx 0 - windowLow lows idx)
                        / (windowHigh highs idx - windowLow lows idx))
          else none)
        if recent_k_values.isEmpty then k_percent
        else recent_k_values.sum / recent_k_values.length
      else k_percent
    some (k_percent, d_percent)

/-- 16 samples whose three most recent %K values are 125/3, 100, 100. -/
def seriesL8 : List ℚ :=
  [1, 2, 3, 4, 5, 6, 7, 8, 9, 10, 11, 12, 13, 14, 15, 8]

set_option maxRecDepth 4000 in
/-- C8 counterexample: on 16 samples, `trading_analyzer.py`'s `stochastic`
returns %D = %K = 125/3, while the arithmetic mean of the three most recent
%K values is 725/9 ≠ 125/3. -/
theorem claim8_counterexample :
    (stochastic seriesL8 seriesL8 seriesL8).map Prod.snd = some (125/3)
  ∧ (kValueAt seriesL8 seriesL8 seriesL8 15 + kValueAt seriesL8 seriesL8 seriesL8 14
      + kValueAt seriesL8 seriesL8 seriesL8 13) / 3 = 725/9
  ∧ (125/3 : ℚ) ≠ 725/9 := by
  refine ⟨?_, ?_, by norm_num⟩
  · with_unfolding_all decide
  · with_unfolding_all decide

/-- C8 (amended): for `trading_analyzer_fixed.py`'s `stochastic`, with at
least 16 samples and none of the three most recent 14-sample windows flat,
%D is the arithmetic mean of the three most recent (reconstructed) %K
values; with 14 or 15 samples %D equals %K.  (A flat window is skipped
rather than counted as 50, and `trading_analyzer.py`'s variant always
returns %D = %K — see the counterexample.) -/
theorem claim8_stochastic_d (highs lows closes : List ℚ) :
    (16 ≤ closes.length →
      windowHigh highs (closes.length - 1) ≠ windowLow lows (closes.length - 1) →
      windowHigh highs (closes.length - 2) ≠ windowLow lows (closes.length - 2) →
      windowHigh highs (closes.length - 3) ≠ windowLow lows (closes.length - 3) →
      (stochastic_fixed highs lows closes).map Prod.snd =
        some ((kValueAt highs lows closes (closes.length - 1)
                + kValueAt highs lows closes (closes.length - 2)
                + kValueAt highs lows closes (closes.length - 3)) / 3))
  ∧ (14 ≤ closes.length → closes.length < 16 →
      (stochastic_fixed highs lows closes).map Prod.snd =
        (stochastic_fixed highs lows closes).map Prod.fst) := by
  constructor
  · intro h16 w1 w2 w3
    have e1 : closes.length - 1 - 0 = closes.length - 1 := by omega
    have e2 : closes.length - 1 - 1 = closes.length - 2 := by omega
    have e3 : closes.length - 1 - 2 = closes.length - 3 := by omega
    have hr : List.range 3 = [0, 1, 2] := rfl
    simp only [stochastic_fixed, if_neg (show ¬ closes.length < 14 by omega),
      if_pos (show 14 + 3 - 1 ≤ closes.length by omega), hr,
      List.filterMap_cons, List.filterMap_nil, e1, e2, e3,
      if_pos (show (13:ℕ) ≤ closes.length - 1 by omega),
      if_pos (show (13:ℕ) ≤ closes.length - 2 by omega),
      if_pos (show (13:ℕ) ≤ closes.length - 3 by omega),
      if_neg w1, if_neg w2, if_neg w3]
    simp only [kValueAt, if_neg w1, if_neg w2, if_neg w3, Option.map_some,
      List.isEmpty_cons, List.sum_cons, List.sum_nil, List.length_cons,
      List.length_nil, Option.some.injEq]
    norm_num
    ring
  · intro h14 h15
    simp only [stochastic_fixed, if_neg (show ¬ closes.length < 14 by omega),
      if_neg (show ¬ (14 + 3 - 1 ≤ closes.length) by omega)]
    rfl

set_option maxRecDepth 8000 in
theorem claim8_witness :
    (16 ≤ seriesL8.length)
  ∧ (windowHigh seriesL8 (seriesL8.length - 1) ≠ windowLow seriesL8 (seriesL8.length - 1))
  ∧ (windowHigh seriesL8 (seriesL8.length - 2) ≠ windowLow seriesL8 (seriesL8.length - 2))
  ∧ (windowHigh seriesL8 (seriesL8.length - 3) ≠ windowLow seriesL8 (seriesL8.length - 3))
  ∧ (stochastic_fixed seriesL8 seriesL8 seriesL8).map Prod.snd =
      some ((kValueAt seriesL8 seriesL8 seriesL8 (seriesL8.length - 1)
              + kValueAt seriesL8 seriesL8 seriesL8 (seriesL8.length - 2)
              + kValueAt seriesL8 seriesL8 seriesL8 (seriesL8.length - 3)) / 3) :=
  ⟨by norm_num [seriesL8], by with_unfolding_all decide, by with_unfolding_all decide,
    by with_unfolding_all decide,
    (claim8_stochastic_d seriesL8 seriesL8 seriesL8).1 (by norm_num [seriesL8])
      (by with_unfolding_all decide) (by with_unfolding_all decide)
      (by with_unfolding_all decide)⟩

/-- Signal lifecycle states (the status strings used by the source). -/
inductive SignalStatus where
  | ACTIVE
  | HIT_TARGET
  | HIT_STOP
  | EXPIRED
deriving DecidableEq, Repr

/-- A candidate pattern dict `{pattern, entry, target, stop, confidence}` as
produced by the detectors. -/
structure PatternData where
  pattern : String
  entry : ℚ
  target : ℚ
  stop : ℚ
  confidence : ℚ
deriving DecidableEq, Repr

/-- `trading_analyzer.py` `TradingSignal` (the field `risk_reward_ratio` is
shortened to `risk_reward`; `indicators_used` keeps the raw indicator dict
rather than its JSON serialization). -/
structure TradingSignal where
  timestamp : ℚ
  price : ℚ
  pattern_type : String
  entry_price : ℚ
  target_price : ℚ
  stop_loss : ℚ
  confidence : ℚ
  indicators_used : Indicators
  signal_hash : String
  status : SignalStatus
  created_at : ℚ
  closed_at : Option ℚ
  profit_loss : ℚ
  activated : Bool
  risk_reward : ℚ
deriving DecidableEq, Repr

/-- `TradingSignal.__init__` (with `_calculate_risk_reward`). -/
def mkTradingSignal (timestamp price : ℚ) (pattern_type : String)
    (entry_price target_price stop_loss confidence : ℚ)
    (indicators_used : Indicators) (signal_hash : String) : TradingSignal where
  timestamp := timestamp
  price := price
  pattern_type := pattern_type
  entry_price := entry_price
  target_price := target_price
  stop_loss := stop_loss
  confidence := confidence
  indicators_used := indicators_used
  signal_hash := signal_hash
  status := SignalStatus.ACTIVE
  created_at := timestamp
  closed_at := none
  profit_loss := 0
  activated := false
  risk_reward :=
    if 0 < |entry_price - stop_loss| then
      |target_price - entry_price| / |entry_price - stop_loss|
    else 0

/-- Steps 4 and 5 of `SignalValidator.validate_signal_parameters` (the code
both direction branches fall through to). -/
def validate_risk (pd : PatternData) : Bool × String :=
  let risk := |pd.entry - pd.stop|
  let reward := |pd.target - pd.entry|
  let risk_reward := if 0 < risk then reward / risk else 0
  if risk_reward < 3/2 then (false, "Risk Reward baixo")
  else if 5 < risk / pd.entry * 100 then (false, "Risk alto")
  else (true, "Valido")

/-- `SignalValidator.validate_signal_parameters` of `trading_analyzer.py`
(the `indicators` parameter is unused there). -/
def validate_signal_parameters (pd : PatternData) (current_price : ℚ) : Bool × String :=
  if pd.entry ≤ 0 ∨ pd.target ≤ 0 ∨ pd.stop ≤ 0 ∨ current_price ≤ 0 then
    (false, "Precos devem ser positivos")
  else if 2 < |pd.entry - current_price| / current_price * 100 then
    (false, "Entry muito distante")
  else if isBullish pd.pattern then
    if pd.target ≤ pd.entry then (false, "Target deve ser maior que entry")
    else if pd.entry ≤ pd.stop then (false, "Stop deve ser menor que entry")
    else validate_risk pd
  else
    if pd.entry ≤ pd.target then (false, "Target deve ser menor que entry")
    else if pd.stop ≤ pd.entry then (false, "Stop deve ser maior que entry")
    else validate_risk pd

/-- In-memory state of `SignalManager` (`active_signals` dict, uniqueness
set and cooldowns; the hash function itself is MD5 over rounded prices and
is abstracted as a parameter of the operations). -/
structure SignalManager where
  active_signals : List (String × TradingSignal)
  signal_hashes : List String
  pattern_cooldowns : List (String × ℚ)
  max_active_signals : ℕ
deriving Repr

/-- `SignalManager.__init__` with an empty database. -/
def initSignalManager : SignalManager where
  active_signals := []
  signal_hashes := []
  pattern_cooldowns := []
  max_active_signals := 10

/-- `SignalManager._has_overlapping_signal` (the `current_price` argument is
unused by its body, as in the source). -/
def has_overlapping_signal (m : SignalManager) (pd : PatternData)
    (current_price : ℚ) : Bool :=
  m.active_signals.any (fun q =>
    decide (|q.2.entry_price - pd.entry| / pd.entry * 100 < 1) &&
    ((endswith pd.pattern "_BUY" && endswith q.2.pattern_type "_BUY") ||
     (endswith pd.pattern "_SELL" && endswith q.2.pattern_type "_SELL") ||
     (pd.pattern == "DOUBLE_BOTTOM" && decide (q.2.entry_price < q.2.target_price))))

/-- `SignalManager.can_create_signal`. -/
def can_create_signal (hashFn : PatternData → ℚ → String) (m : SignalManager)
    (pd : PatternData) (current_price : ℚ) (indicators : Indicators)
    (now : ℚ) : Bool × String :=
  if m.max_active_signals ≤ m.active_signals.length then
    (false, "Limite de sinais atingido")
  else if is_pattern_in_cooldown m.pattern_cooldowns pd.pattern now then
    (false, "Padrao em cooldown")
  else if (validate_signal_parameters pd current_price).1 = false then
    (false, "Parametros invalidos")
  else if (validate_market_conditions indicators).1 = false then
    (false, "Condicoes inadequadas")
  else if is_signal_unique m.signal_hashes (hashFn pd current_price) = false then
    (false, "Sinal duplicado")
  else if has_overlapping_signal m pd current_price then
    (false, "Sobreposicao detectada")
  else (true, "Valido")

/-- `SignalManager.create_signal` (persistence to SQLite is out of the
model; `reorder` is the uniqueness-set enumeration, see
`add_signal_hash`). -/
def create_signal (hashFn : PatternData → ℚ → String)
    (reorder : List String → List String) (m : SignalManager) (pd : PatternData)
    (indicators_used : Indicators) (current_price : ℚ) (now : ℚ) :
    Option TradingSignal × SignalManager :=
  if (can_create_signal hashFn m pd current_price indicators_used now).1 = false then
    (none, m)
  else
    let signal_hash := hashFn pd current_price
    let signal := mkTradingSignal now current_price pd.pattern pd.entry pd.target
      pd.stop pd.confidence indicators_used signal_hash
    (some signal,
      { m with
          active_signals := ainsert m.active_signals signal_hash signal
          signal_hashes := add_signal_hash reorder signal_hash m.signal_hashes
          pattern_cooldowns := set_pattern_cooldown m.pattern_cooldowns pd.pattern now })

/-- `SignalManager._check_signal_activation` (tolerance 0.1%). -/
def check_signal_activation (signal : TradingSignal) (current_price : ℚ) : Bool :=
  if isBullish signal.pattern_type then
    decide (signal.entry_price * (1 - 1/1000) ≤ current_price)
  else
    decide (current_price ≤ signal.entry_price * (1 + 1/1000))

/-- `SignalManager._check_target_hit`. -/
def check_target_hit (signal : TradingSignal) (current_price : ℚ) : Bool :=
  if isBullish signal.pattern_type then decide (signal.target_price ≤ current_price)
  else decide (current_price ≤ signal.target_price)

/-- `SignalManager._check_stop_hit`. -/
def check_stop_hit (signal : TradingSignal) (current_price : ℚ) : Bool :=
  if isBullish signal.pattern_type then decide (current_price ≤ signal.stop_loss)
  else decide (signal.stop_loss ≤ current_price)

/-- `SignalManager._calculate_profit_loss`. -/
def calculate_profit_loss (signal : TradingSignal) (exit_price : ℚ) : ℚ :=
  if isBullish signal.pattern_type then
    (exit_price - signal.entry_price) / signal.entry_price * 100
  else
    (signal.entry_price - exit_price) / signal.entry_price * 100

/-- The activation block of `SignalManager.update_signals`. -/
def update_activation (signal : TradingSignal) (current_price : ℚ) : TradingSignal :=
  if signal.activated = false ∧ check_signal_activation signal current_price = true then
    { signal with activated := true }
  else signal

/-- The target/stop block of `SignalManager.update_signals` (runs only for
activated signals). -/
def update_target_stop (signal : TradingSignal) (current_price now : ℚ) : TradingSignal :=
  if signal.activated = true then
    if check_target_hit signal current_price then
      { signal with status := SignalStatus.HIT_TARGET, closed_at := some now,
                    profit_loss := calculate_profit_loss signal signal.target_price }
    else if check_stop_hit signal current_price then
      { signal with status := SignalStatus.HIT_STOP, closed_at := some now,
                    profit_loss := calculate_profit_loss signal signal.stop_loss }
    else signal
  else signal

/-- The expiry block of `SignalManager.update_signals` (24h if not
activated, 48h otherwise); note it is NOT guarded by the signal still being
ACTIVE, so it can overwrite a target/stop transition made in the same
pass. -/
def update_expiry (signal : TradingSignal) (now : ℚ) : TradingSignal :=
  let max_age : ℚ := if signal.activated = true then 48 * 3600 else 24 * 3600
  if max_age < now - signal.created_at then
    { signal with status := SignalStatus.EXPIRED, closed_at := some now, profit_loss := 0 }
  else signal

/-- One loop body of `SignalManager.update_signals` applied to a signal that
was ACTIVE at the start of the pass: activation, then target/stop, then
expiry. -/
def update_signal_step (signal : TradingSignal) (current_price now : ℚ) : TradingSignal :=
  update_expiry (update_target_stop (update_activation signal current_price) current_price now) now

/-- `SignalManager.update_signals`: signals whose status is not ACTIVE are
skipped; a signal whose status changed (necessarily to a non-ACTIVE status)
is collected in the returned list and removed from `active_signals`. -/
def update_signals (m : SignalManager) (current_price now : ℚ) :
    List TradingSignal × SignalManager :=
  let step := fun (s : TradingSignal) =>
    if s.status = SignalStatus.ACTIVE then update_signal_step s current_price now else s
  let updated := m.active_signals.filterMap (fun q =>
    if q.2.status = SignalStatus.ACTIVE ∧ (step q.2).status ≠ SignalStatus.ACTIVE then
      some (step q.2)
    else none)
  let remaining := m.active_signals.filterMap (fun q =>
    if q.2.status = SignalStatus.ACTIVE ∧ (step q.2).status ≠ SignalStatus.ACTIVE then
      none
    else some (q.1, step q.2))
  (updated, { m with active_signals := remaining })

theorem validate_risk_spec (pd : PatternData) (hentry : 0 < pd.entry)
    (h : (validate_risk pd).1 = true) :
    0 < |pd.entry - pd.stop|
  ∧ 3/2 ≤ |pd.target - pd.entry| / |pd.entry - pd.stop|
  ∧ |pd.entry - pd.stop| ≤ 5/100 * pd.entry := by
  simp only [validate_risk] at h
  by_cases hrisk : 0 < |pd.entry - pd.stop|
  · rw [if_pos hrisk] at h
    split_ifs at h with t1 t2
    refine ⟨hrisk, le_of_not_lt t1, ?_⟩
    have h5 := le_of_not_lt t2
    rw [div_mul_eq_mul_div, div_le_iff₀ hentry] at h5
    linarith
  · rw [if_neg hrisk, if_pos (by norm_num : (0:ℚ) < 3/2)] at h
    simp at h

theorem validate_signal_parameters_spec (pd : PatternData) (current_price : ℚ)
    (h : (validate_signal_parameters pd current_price).1 = true) :
    (0 < pd.entry ∧ 0 < pd.target ∧ 0 < pd.stop ∧ 0 < current_price)
  ∧ |pd.entry - current_price| ≤ 2/100 * current_price
  ∧ (isBullish pd.pattern = true → pd.stop < pd.entry ∧ pd.entry < pd.target)
  ∧ (isBullish pd.pattern = false → pd.target < pd.entry ∧ pd.entry < pd.stop)
  ∧ 0 < |pd.entry - pd.stop|
  ∧ 3/2 ≤ |pd.target - pd.entry| / |pd.entry - pd.stop|
  ∧ |pd.entry - pd.stop| ≤ 5/100 * pd.entry := by
  simp only [validate_signal_parameters] at h
  by_cases g1 : pd.entry ≤ 0 ∨ pd.target ≤ 0 ∨ pd.stop ≤ 0 ∨ current_price ≤ 0
  · rw [if_pos g1] at h
    simp at h
  rw [if_neg g1] at h
  push_neg at g1
  obtain ⟨he, ht, hs, hc⟩ := g1
  by_cases g2 : 2 < |pd.entry - current_price| / current_price * 100
  · rw [if_pos g2] at h
    simp at h
  rw [if_neg g2] at h
  have hdist : |pd.entry - current_price| ≤ 2/100 * current_price := by
    have h2 := le_of_not_lt g2
    rw [div_mul_eq_mul_div, div_le_iff₀ hc] at h2
    linarith
  by_cases gb : isBullish pd.pattern = true
  · rw [if_pos gb] at h
    by_cases g3 : pd.target ≤ pd.entry
    · rw [if_pos g3] at h
      simp at h
    rw [if_neg g3] at h
    by_cases g4 : pd.entry ≤ pd.stop
    · rw [if_pos g4] at h
      simp at h
    rw [if_neg g4] at h
    have hr := validate_risk_spec pd he h
    exact ⟨⟨he, ht, hs, hc⟩, hdist,
      fun _ => ⟨lt_of_not_le g4, lt_of_not_le g3⟩,
      fun hb' => by rw [hb'] at gb; exact absurd gb (by simp),
      hr.1, hr.2.1, hr.2.2⟩
  · rw [if_neg gb] at h
    by_cases g5 : pd.entry ≤ pd.target
    · rw [if_pos g5] at h
      simp at h
    rw [if_neg g5] at h
    by_cases g6 : pd.stop ≤ pd.entry
    · rw [if_pos g6] at h
      simp at h
    rw [if_neg g6] at h
    have hr := validate_risk_spec pd he h
    exact ⟨⟨he, ht, hs, hc⟩, hdist,
      fun hb' => absurd hb' gb,
      fun _ => ⟨lt_of_not_le g5, lt_of_not_le g6⟩,
      hr.1, hr.2.1, hr.2.2⟩

/-- C2: every signal returned by `SignalManager.create_signal` satisfies the
claimed parameter invariants: direction consistency (bullish `target > entry
> stop`, bearish `stop > entry > target`), risk/reward ≥ 1.5, risk ≤ 5% of
entry, entry within 2% of the current price, and positive prices. -/
theorem claim2_create_signal_valid (hashFn : PatternData → ℚ → String)
    (reorder : List String → List String) (m : SignalManager) (pd : PatternData)
    (indicators : Indicators) (current_price now : ℚ) (s : TradingSignal)
    (h : (create_signal hashFn reorder m pd indicators current_price now).1 = some s) :
    (isBullish s.pattern_type = true →
        s.stop_loss < s.entry_price ∧ s.entry_price < s.target_price)
  ∧ (isBullish s.pattern_type = false →
        s.target_price < s.entry_price ∧ s.entry_price < s.stop_loss)
  ∧ 3/2 ≤ |s.target_price - s.entry_price| / |s.entry_price - s.stop_loss|
  ∧ |s.entry_price - s.stop_loss| ≤ 5/100 * s.entry_price
  ∧ |s.entry_price - current_price| ≤ 2/100 * current_price
  ∧ 0 < s.entry_price ∧ 0 < s.target_price ∧ 0 < s.stop_loss ∧ 0 < current_price := by
  by_cases hcc : (can_create_signal hashFn m pd current_price indicators now).1 = false
  · simp only [create_signal, if_pos hcc] at h
    simp at h
  · simp only [create_signal, if_neg hcc] at h
    have hs : s = mkTradingSignal now current_price pd.pattern pd.entry pd.target
        pd.stop pd.confidence indicators (hashFn pd current_price) := by
      simpa using h.symm
    have hv : (validate_signal_parameters pd current_price).1 = true := by
      by_contra hvf
      apply hcc
      have hvf' : (validate_signal_parameters pd current_price).1 = false := by
        cases hb : (validate_signal_parameters pd current_price).1
        · rfl
        · exact absurd hb hvf
      simp only [can_create_signal]
      split_ifs <;> simp_all
    have spec := validate_signal_parameters_spec pd current_price hv
    subst hs
    exact ⟨spec.2.2.1, spec.2.2.2.1, spec.2.2.2.2.2.1, spec.2.2.2.2.2.2, spec.2.1,
      spec.1.1, spec.1.2.1, spec.1.2.2.1, spec.1.2.2.2⟩

/-- A constant stand-in for the MD5 hash function. -/
def hashFnEx : PatternData → ℚ → String := fun _ _ => "abc123def456"

/-- A bullish indicator-confluence candidate at price 100. -/
def pdEx : PatternData :=
  { pattern := "INDICATORS_BUY", entry := 100, target := 103, stop := 98, confidence := 70 }

/-- Indicators satisfying the market-condition check. -/
def indEx : Indicators := [("RSI", some 50), ("SMA_12", some 1), ("SMA_30", some 1)]

/-- The signal `create_signal` builds from `pdEx`. -/
def sigEx : TradingSignal :=
  mkTradingSignal 0 100 "INDICATORS_BUY" 100 103 98 70 indEx "abc123def456"

set_option maxRecDepth 4000 in
theorem claim2_witness :
    (create_signal hashFnEx id initSignalManager pdEx indEx 100 0).1 = some sigEx
  ∧ ((isBullish sigEx.pattern_type = true →
        sigEx.stop_loss < sigEx.entry_price ∧ sigEx.entry_price < sigEx.target_price)
    ∧ (isBullish sigEx.pattern_type = false →
        sigEx.target_price < sigEx.entry_price ∧ sigEx.entry_price < sigEx.stop_loss)
    ∧ 3/2 ≤ |sigEx.target_price - sigEx.entry_price| / |sigEx.entry_price - sigEx.stop_loss|
    ∧ |sigEx.entry_price - sigEx.stop_loss| ≤ 5/100 * sigEx.entry_price
    ∧ |sigEx.entry_price - (100:ℚ)| ≤ 2/100 * 100
    ∧ 0 < sigEx.entry_price ∧ 0 < sigEx.target_price ∧ 0 < sigEx.stop_loss ∧ 0 < (100:ℚ)) :=
  ⟨by with_unfolding_all decide,
    claim2_create_signal_valid hashFnEx id initSignalManager pdEx indEx 100 0 sigEx
      (by with_unfolding_all decide)⟩

/-- A bullish signal that has been activated, created at time 0. -/
def signalHitExpired : TradingSignal :=
  { timestamp := 0, price := 100, pattern_type := "DOUBLE_BOTTOM", entry_price := 100,
    target_price := 110, stop_loss := 97, confidence := 80, indicators_used := [],
    signal_hash := "h1", status := SignalStatus.ACTIVE, created_at := 0, closed_at := none,
    profit_loss := 0, activated := true, risk_reward := 10/3 }

/-- C3 counterexample: at price 111 and 50 hours after creation, a single
`update_signals` body first marks the signal HIT_TARGET with profit 10%,
then the unguarded expiry check overwrites that to EXPIRED with profit 0 —
one pass moves the signal through two different non-ACTIVE statuses. -/
theorem claim3_counterexample :
    (update_target_stop (update_activation signalHitExpired 111) 111 180000).status
        = SignalStatus.HIT_TARGET
  ∧ (update_target_stop (update_activation signalHitExpired 111) 111 180000).profit_loss = 10
  ∧ (update_signal_step signalHitExpired 111 180000).status = SignalStatus.EXPIRED
  ∧ (update_signal_step signalHitExpired 111 180000).profit_loss = 0 := by
  refine ⟨?_, ?_, ?_, ?_⟩ <;> with_unfolding_all decide

/-- C3 (amended): a signal whose status is not ACTIVE at the start of an
`update_signals` pass is skipped and left unchanged in the active table;
`activated`, once true, stays true through a pass; and whenever a pass moves
a signal out of ACTIVE its `closed_at` is stamped.  Within one pass,
however, a signal older than its expiry window that hits target or stop is
subsequently overwritten to EXPIRED with profit 0 (see the
counterexample). -/
theorem claim3_transition_rules (m : SignalManager) (current_price now : ℚ) :
    (∀ hsh s, (hsh, s) ∈ m.active_signals → s.status ≠ SignalStatus.ACTIVE →
        (hsh, s) ∈ (update_signals m current_price now).2.active_signals)
  ∧ (∀ s : TradingSignal, s.activated = true →
        (update_signal_step s current_price now).activated = true)
  ∧ (∀ s : TradingSignal, s.status = SignalStatus.ACTIVE →
        (update_signal_step s current_price now).status ≠ SignalStatus.ACTIVE →
        (update_signal_step s current_price now).closed_at = some now) := by
  refine ⟨?_, ?_, ?_⟩
  · intro hsh s hmem hstat
    simp only [update_signals]
    refine List.mem_filterMap.mpr ⟨(hsh, s), hmem, ?_⟩
    have hcond : ¬(s.status = SignalStatus.ACTIVE ∧
        ((if s.status = SignalStatus.ACTIVE then
            update_signal_step s current_price now else s)).status ≠ SignalStatus.ACTIVE) :=
      fun hc => hstat hc.1
    rw [if_neg hcond, if_neg hstat]
  · intro s hact
    simp only [update_signal_step, update_expiry, update_target_stop, update_activation]
    split_ifs <;> simp_all
  · intro s hact hne
    simp only [update_signal_step, update_expiry, update_target_stop,
      update_activation] at hne ⊢
    split_ifs at hne ⊢ <;> simp_all

/-- A closed (non-ACTIVE) signal sitting in the active table. -/
def signalDoneEx : TradingSignal :=
  { signalHitExpired with
      status := SignalStatus.HIT_TARGET
      signal_hash := "h2"
      closed_at := some 50 }

/-- A manager whose table holds one non-ACTIVE signal. -/
def managerDoneEx : SignalManager :=
  { initSignalManager with active_signals := [("h2", signalDoneEx)] }

theorem claim3_witness :
    ("h2", signalDoneEx) ∈ managerDoneEx.active_signals
  ∧ signalDoneEx.status ≠ SignalStatus.ACTIVE
  ∧ ("h2", signalDoneEx) ∈ (update_signals managerDoneEx 111 999).2.active_signals
  ∧ signalDoneEx.activated = true
  ∧ (update_signal_step signalDoneEx 111 999).activated = true :=
  ⟨by simp [managerDoneEx], by decide,
    (claim3_transition_rules managerDoneEx 111 999).1 "h2" signalDoneEx
      (by simp [managerDoneEx]) (by decide),
    rfl, (claim3_transition_rules managerDoneEx 111 999).2.1 signalDoneEx rfl⟩

/-! ### Ingestion: `app.py` `BitcoinDataStreamer` and
`core/data_streamer.py` `MultiPairDataStreamer` -/

/-- `app.py` `BitcoinData`. -/
structure BitcoinData where
  timestamp : ℚ
  price : ℚ
  volume_24h : ℚ
  market_cap : ℚ
  price_change_24h : ℚ
  source : String
deriving DecidableEq, Repr

/-- `BitcoinDataStreamer._validate_price_data` (the `not data` guard is
handled by the caller's `Option`). -/
def validate_price_data (last_successful_price : Option ℚ) (data : BitcoinData) : Bool :=
  if data.price ≤ 0 then false
  else if truthyOpt last_successful_price = true ∧
      1/10 < |data.price - last_successful_price.getD 0| / last_successful_price.getD 0 then
    false
  else if ¬(20000 ≤ data.price ∧ data.price ≤ 200000) then false
  else true

/-- `BitcoinDataStreamer._is_duplicate_data` (`data_queue[-1]` is the last
accepted tick; "same price" is `|Δ| < 0.01`). -/
def is_duplicate_data (data_queue : List BitcoinData) (new_data : BitcoinData) : Bool :=
  match data_queue.getLast? with
  | none => false
  | some last_data =>
      decide (|new_data.price - last_data.price| < 1/100) &&
      (new_data.source == last_data.source) &&
      decide (new_data.timestamp - last_data.timestamp < 2)

/-- The acceptance test of the `stream_worker` loop:
`data and self._validate_price_data(data) and not self._is_duplicate_data(data)`. -/
def streamer_accepts (data_queue : List BitcoinData) (last_successful_price : Option ℚ)
    (data : BitcoinData) : Bool :=
  validate_price_data last_successful_price data && !(is_duplicate_data data_queue data)

/-- The raw dict returned by a `DataSource.fetch_data` implementation in
`core/data_streamer.py`. -/
structure RawTick where
  price : ℚ
  open_price : ℚ
  high : ℚ
  low : ℚ
  close : ℚ
  volume : ℚ
  price_change_24h : ℚ
  source : String
deriving DecidableEq, Repr

/-- The `PriceData` constructed by
`MultiPairDataStreamer._collect_pair_data` from a fetched dict. -/
def collect_pair_price_data (symbol : String) (raw : RawTick) (now : ℚ) : PriceData where
  timestamp := now
  symbol := symbol
  price := raw.price
  open_price := raw.open_price
  high := raw.high
  low := raw.low
  close := raw.close
  volume := raw.volume
  source := raw.source

/-- The commit step of `MultiPairDataStreamer._collect_all_data`: any
non-`None` result of `_collect_pair_data` is handed to `add_price_data`
directly — no validation and no deduplication. -/
def commit_collected (pair : TradingPair) (price_data : Option PriceData)
    (now : ℚ) : TradingPair :=
  match price_data with
  | some pd => add_price_data pair pd now
  | none => pair

/-- A fetched dict carrying a non-positive price. -/
def rawNeg : RawTick :=
  { price := -5, open_price := -5, high := -5, low := -5, close := -5,
    volume := 0, price_change_24h := 0, source := "CoinGecko" }

/-- Tick built from `rawNeg` at t=10. -/
def ethTickA : PriceData := collect_pair_price_data "ETHUSDT" rawNeg 10

/-- Tick built from `rawNeg` at t=11 (same source, same price, 1 s later). -/
def ethTickB : PriceData := collect_pair_price_data "ETHUSDT" rawNeg 11

/-- The pair after the multi-pair streamer commits both ticks. -/
def ethPair2 : TradingPair :=
  commit_collected
    (commit_collected (initTradingPair "ETHUSDT" true) (some ethTickA) 10)
    (some ethTickB) 11

set_option maxRecDepth 4000 in
/-- C5 counterexample: the `MultiPairDataStreamer` pipeline commits a tick
with price −5 and then commits a same-source, same-price tick one second
later — both land in the series, refuting both the positivity and the
deduplication clauses for that ingestion path. -/
theorem claim5_counterexample :
    ethPair2.price_history.map (fun d => d.price) = [-5, -5]
  ∧ ethPair2.price_history.length = 2 := by
  constructor <;> with_unfolding_all decide

/-- C5 (amended): in the `BitcoinDataStreamer` (`app.py`) pipeline, every
accepted tick has a strictly positive price (in fact within
[20000, 200000]), and a tick whose source and price equal the previously
accepted tick's and whose timestamp is within 2 seconds of it is rejected.
The `MultiPairDataStreamer` pipeline commits fetched ticks without any such
checks (see the counterexample). -/
theorem claim5_streamer_rules (data_queue : List BitcoinData)
    (last_successful_price : Option ℚ) (data : BitcoinData) :
    (streamer_accepts data_queue last_successful_price data = true →
        0 < data.price ∧ 20000 ≤ data.price ∧ data.price ≤ 200000)
  ∧ (∀ prev, data_queue.getLast? = some prev → prev.source = data.source →
      prev.price = data.price → |data.timestamp - prev.timestamp| < 2 →
      streamer_accepts data_queue last_successful_price data = false) := by
  constructor
  · intro h
    have hv : validate_price_data last_successful_price data = true := by
      simp only [streamer_accepts, Bool.and_eq_true] at h
      exact h.1
    simp only [validate_price_data] at hv
    split_ifs at hv with v1 v2 v3
    push_neg at v1 v3
    exact ⟨v1, v3⟩
  · intro prev hlast hsrc hprice htime
    have hdup : is_duplicate_data data_queue data = true := by
      simp only [is_duplicate_data, hlast]
      refine Bool.and_eq_true_iff.mpr ⟨Bool.and_eq_true_iff.mpr ⟨?_, ?_⟩, ?_⟩
      · rw [hprice]
        simp
      · simp [hsrc]
      · have := le_abs_self (data.timestamp - prev.timestamp)
        simp only [decide_eq_true_eq]
        linarith [abs_sub_comm data.timestamp prev.timestamp ▸ htime]
    simp [streamer_accepts, hdup]

/-- The previously accepted tick of the witness. -/
def btcPrev : BitcoinData :=
  { timestamp := 0, price := 45000, volume_24h := 0, market_cap := 0,
    price_change_24h := 0, source := "binance" }

/-- A same-source equal-price tick one second later. -/
def btcDup : BitcoinData :=
  { btcPrev with timestamp := 1 }

theorem claim5_witness :
    [btcPrev].getLast? = some btcPrev
  ∧ btcPrev.source = btcDup.source
  ∧ btcPrev.price = btcDup.price
  ∧ |btcDup.timestamp - btcPrev.timestamp| < 2
  ∧ streamer_accepts [btcPrev] none btcDup = false :=
  ⟨rfl, rfl, rfl, by norm_num [btcDup, btcPrev],
    (claim5_streamer_rules [btcPrev] none btcDup).2 btcPrev rfl rfl rfl
      (by norm_num [btcDup, btcPrev])⟩
